import Mathlib

/-!
Verification of the risk-scoring core of the AI-cyclone-prediction repository.

The only deterministic business rule in the source is
`CyclonePredictor.assess_cyclone_risk` (src/app.py, lines 162-210).  We give a
shallow embedding of that function over exact rationals (Python floats are
modelled by `ℚ`; every constant in the source is decimal and exact) and prove
or refute the specification's claims about it.

Input modelling: the Python function receives a nested dictionary
`weather_data`; a falsy argument (`None` or `{}`) is modelled as `none`, a
truthy dictionary as `some (WeatherData ...)` whose optional fields mirror the
`.get(key, default)` accesses in the source.
-/

namespace CyclonePrediction

/-- The `current` sub-dictionary of the weather data: each field models the
corresponding key, `none` meaning the key is absent so that the source's
`.get(key, default)` substitutes the default. -/
structure CurrentConditions where
  wind_kph : Option ℚ
  pressure_mb : Option ℚ
  humidity : Option ℚ
  temp_c : Option ℚ
  deriving DecidableEq, Repr

/-- The `weatherapi` sub-dictionary: holds an optional `current` entry,
mirroring `weather_data.get('weatherapi', {}).get('current', {})`. -/
structure WeatherApiEntry where
  current : Option CurrentConditions
  deriving DecidableEq, Repr

/-- A truthy `weather_data` dictionary: holds an optional `weatherapi` entry. -/
structure WeatherData where
  weatherapi : Option WeatherApiEntry
  deriving DecidableEq, Repr

/-- The empty `current` dictionary `{}`: every key absent. -/
def emptyCurrent : CurrentConditions := ⟨none, none, none, none⟩

/-- The four factor values placed under the `'factors'` key of the result. -/
structure RiskFactors where
  wind : ℚ
  pressure : ℚ
  thermal : ℚ
  moisture : ℚ
  deriving DecidableEq, Repr

/-- The dictionary returned by `assess_cyclone_risk`: `color` and `factors`
are optional because the early `unknown` return and the fallthrough `Extreme`
return omit them. -/
structure RiskAssessment where
  risk_level : String
  probability : ℚ
  color : Option String
  factors : Option RiskFactors
  deriving DecidableEq, Repr

/-- Source: `wind_risk = min(wind_speed / 120, 1.0)`. -/
def wind_risk (wind_speed : ℚ) : ℚ := min (wind_speed / 120) 1.0

/-- Source: `pressure_risk = max(0, (1013 - pressure) / 50)`. -/
def pressure_risk (pressure : ℚ) : ℚ := max 0 ((1013 - pressure) / 50)

/-- Source: `thermal_risk = max(0, (temp - 26) / 10) if temp > 26 else 0`. -/
def thermal_risk (temp : ℚ) : ℚ :=
  if temp > 26 then max 0 ((temp - 26) / 10) else 0

/-- Source: `moisture_risk = humidity / 100`. -/
def moisture_risk (humidity : ℚ) : ℚ := humidity / 100

/-- Source: `combined_risk = wind_risk*0.3 + pressure_risk*0.3 +
thermal_risk*0.2 + moisture_risk*0.2`. -/
def combined_risk (wind_speed pressure humidity temp : ℚ) : ℚ :=
  wind_risk wind_speed * 0.3 +
  pressure_risk pressure * 0.3 +
  thermal_risk temp * 0.2 +
  moisture_risk humidity * 0.2

/-- Source: the `risk_levels` dictionary, in insertion order (Python dicts
iterate in insertion order). -/
def risk_levels : List ((ℚ × ℚ) × (String × String)) :=
  [((0, 0.2), ("Low", "#2ecc71")),
   ((0.2, 0.4), ("Moderate", "#f39c12")),
   ((0.4, 0.6), ("High", "#e74c3c")),
   ((0.6, 0.8), ("Very High", "#8e44ad")),
   ((0.8, 1.0), ("Extreme", "#2c3e50"))]

/-- Source: the `for (low, high), (level, color) in risk_levels.items()` loop
returning on the first bin with `low <= combined_risk < high`. -/
def lookupRiskLevel (c : ℚ) : Option ((ℚ × ℚ) × (String × String)) :=
  risk_levels.find? fun e => decide (e.1.1 ≤ c) && decide (c < e.1.2)

/-- Source: `CyclonePredictor.assess_cyclone_risk(weather_data)`
(src/app.py, lines 162-210), including the falsy-input early return, the
defaulting `.get` accesses, the bin loop, and the fallthrough return. -/
def assess_cyclone_risk (weather_data : Option WeatherData) : RiskAssessment :=
  match weather_data with
  | none => { risk_level := "unknown", probability := 0,
              color := none, factors := none }
  | some wd =>
    let current : CurrentConditions :=
      match wd.weatherapi with
      | none => emptyCurrent
      | some api => api.current.getD emptyCurrent
    let wind_speed := current.wind_kph.getD 0
    let pressure := current.pressure_mb.getD 1013
    let humidity := current.humidity.getD 50
    let temp := current.temp_c.getD 25
    let c := combined_risk wind_speed pressure humidity temp
    match lookupRiskLevel c with
    | some (_, level, color) =>
      { risk_level := level, probability := c, color := some color,
        factors := some ⟨wind_risk wind_speed, pressure_risk pressure,
                         thermal_risk temp, moisture_risk humidity⟩ }
    | none =>
      { risk_level := "Extreme", probability := 1.0,
        color := some "#2c3e50", factors := none }

/-- A complete weather-data value whose four `current` fields are all present,
in the source's field order (wind, pressure, humidity, temperature). -/
def mkWeatherData (w p h t : ℚ) : Option WeatherData :=
  some ⟨some ⟨some ⟨some w, some p, some h, some t⟩⟩⟩

/-- Modelled from the spec: the tier table of §4.1 read as the claims read it
(lower bound inclusive, upper bound exclusive, final Extreme bin closed at
1.0); used to compare the code's returned tier against the spec's table. -/
def specTier (p : ℚ) : String :=
  if p < 0.2 then "Low"
  else if p < 0.4 then "Moderate"
  else if p < 0.6 then "High"
  else if p < 0.8 then "Very High"
  else "Extreme"

lemma lookup_of_neg {c : ℚ} (h : c < 0) : lookupRiskLevel c = none := by
  have h1 : ¬ ((0:ℚ) ≤ c) := not_le.mpr h
  have h2 : ¬ ((0.2:ℚ) ≤ c) := by intro hc; exact h1 (le_trans (by norm_num) hc)
  have h3 : ¬ ((0.4:ℚ) ≤ c) := by intro hc; exact h1 (le_trans (by norm_num) hc)
  have h4 : ¬ ((0.6:ℚ) ≤ c) := by intro hc; exact h1 (le_trans (by norm_num) hc)
  have h5 : ¬ ((0.8:ℚ) ≤ c) := by intro hc; exact h1 (le_trans (by norm_num) hc)
  simp [lookupRiskLevel, risk_levels, List.find?, h1, h2, h3, h4, h5]

lemma lookup_of_one_le {c : ℚ} (h : (1:ℚ) ≤ c) : lookupRiskLevel c = none := by
  have h5 : ¬ (c < (1.0:ℚ)) := by
    intro hc
    rw [show ((1.0:ℚ)) = 1 from by norm_num] at hc
    exact absurd hc (not_lt.mpr h)
  have h4 : ¬ (c < (0.8:ℚ)) := by intro hc; exact h5 (lt_of_lt_of_le hc (by norm_num))
  have h3 : ¬ (c < (0.6:ℚ)) := by intro hc; exact h4 (lt_trans hc (by norm_num))
  have h2 : ¬ (c < (0.4:ℚ)) := by intro hc; exact h3 (lt_trans hc (by norm_num))
  have h1 : ¬ (c < (0.2:ℚ)) := by intro hc; exact h2 (lt_trans hc (by norm_num))
  simp [lookupRiskLevel, risk_levels, List.find?, h1, h2, h3, h4, h5]

lemma lookup_bin1 {c : ℚ} (h0 : (0:ℚ) ≤ c) (h1 : c < 0.2) :
    lookupRiskLevel c = some ((0, 0.2), ("Low", "#2ecc71")) := by
  simp [lookupRiskLevel, risk_levels, List.find?, h0, h1]

lemma lookup_bin2 {c : ℚ} (h0 : (0.2:ℚ) ≤ c) (h1 : c < 0.4) :
    lookupRiskLevel c = some ((0.2, 0.4), ("Moderate", "#f39c12")) := by
  have ha : ¬ (c < (0.2:ℚ)) := not_lt.mpr h0
  have hb : (0:ℚ) ≤ c := le_trans (by norm_num) h0
  simp [lookupRiskLevel, risk_levels, List.find?, ha, hb, h0, h1]

lemma lookup_bin3 {c : ℚ} (h0 : (0.4:ℚ) ≤ c) (h1 : c < 0.6) :
    lookupRiskLevel c = some ((0.4, 0.6), ("High", "#e74c3c")) := by
  have ha : ¬ (c < (0.2:ℚ)) := not_lt.mpr (le_trans (by norm_num) h0)
  have hb : ¬ (c < (0.4:ℚ)) := not_lt.mpr h0
  have hc0 : (0:ℚ) ≤ c := le_trans (by norm_num) h0
  have hc2 : (0.2:ℚ) ≤ c := le_trans (by norm_num) h0
  simp [lookupRiskLevel, risk_levels, List.find?, ha, hb, hc0, hc2, h0, h1]

lemma lookup_bin4 {c : ℚ} (h0 : (0.6:ℚ) ≤ c) (h1 : c < 0.8) :
    lookupRiskLevel c = some ((0.6, 0.8), ("Very High", "#8e44ad")) := by
  have ha : ¬ (c < (0.2:ℚ)) := not_lt.mpr (le_trans (by norm_num) h0)
  have hb : ¬ (c < (0.4:ℚ)) := not_lt.mpr (le_trans (by norm_num) h0)
  have hcc : ¬ (c < (0.6:ℚ)) := not_lt.mpr h0
  have hc0 : (0:ℚ) ≤ c := le_trans (by norm_num) h0
  have hc2 : (0.2:ℚ) ≤ c := le_trans (by norm_num) h0
  have hc4 : (0.4:ℚ) ≤ c := le_trans (by norm_num) h0
  simp [lookupRiskLevel, risk_levels, List.find?, ha, hb, hcc, hc0, hc2, hc4, h0, h1]

lemma lookup_bin5 {c : ℚ} (h0 : (0.8:ℚ) ≤ c) (h1 : c < 1.0) :
    lookupRiskLevel c = some ((0.8, 1.0), ("Extreme", "#2c3e50")) := by
  have ha : ¬ (c < (0.2:ℚ)) := not_lt.mpr (le_trans (by norm_num) h0)
  have hb : ¬ (c < (0.4:ℚ)) := not_lt.mpr (le_trans (by norm_num) h0)
  have hcc : ¬ (c < (0.6:ℚ)) := not_lt.mpr (le_trans (by norm_num) h0)
  have hd : ¬ (c < (0.8:ℚ)) := not_lt.mpr h0
  have hc0 : (0:ℚ) ≤ c := le_trans (by norm_num) h0
  have hc2 : (0.2:ℚ) ≤ c := le_trans (by norm_num) h0
  have hc4 : (0.4:ℚ) ≤ c := le_trans (by norm_num) h0
  have hc6 : (0.6:ℚ) ≤ c := le_trans (by norm_num) h0
  simp [lookupRiskLevel, risk_levels, List.find?, ha, hb, hcc, hd, hc0, hc2, hc4, hc6, h0, h1]

lemma assess_mk_eq (w p h t : ℚ) :
    assess_cyclone_risk (mkWeatherData w p h t) =
      match lookupRiskLevel (combined_risk w p h t) with
      | some (_, level, color) =>
        { risk_level := level, probability := combined_risk w p h t,
          color := some color,
          factors := some ⟨wind_risk w, pressure_risk p,
                           thermal_risk t, moisture_risk h⟩ }
      | none =>
        { risk_level := "Extreme", probability := 1.0,
          color := some "#2c3e50", factors := none } := rfl

lemma assess_some_eq_mk (wd : WeatherData) :
    ∃ w p h t : ℚ,
      assess_cyclone_risk (some wd) = assess_cyclone_risk (mkWeatherData w p h t) := by
  cases wd with
  | mk api =>
    cases api with
    | none => exact ⟨0, 1013, 50, 25, rfl⟩
    | some entry =>
      cases entry with
      | mk cur =>
        cases cur with
        | none => exact ⟨0, 1013, 50, 25, rfl⟩
        | some c =>
          exact ⟨c.wind_kph.getD 0, c.pressure_mb.getD 1013,
                 c.humidity.getD 50, c.temp_c.getD 25, rfl⟩

lemma one_lit : ((1.0:ℚ)) = 1 := by norm_num

lemma assess_mk_probability (w p h t : ℚ) :
    (assess_cyclone_risk (mkWeatherData w p h t)).probability =
      if 0 ≤ combined_risk w p h t ∧ combined_risk w p h t < 1
      then combined_risk w p h t else 1 := by
  rw [assess_mk_eq]
  set c := combined_risk w p h t with hc
  rcases lt_or_le c 0 with hneg | h0
  · rw [lookup_of_neg hneg, if_neg (fun hh => absurd hh.1 (not_le.mpr hneg))]
    exact one_lit
  · rcases lt_or_le c 1 with hlt | hge
    · rw [if_pos ⟨h0, hlt⟩]
      rcases lt_or_le c 0.2 with h1 | h1
      · rw [lookup_bin1 h0 h1]
      · rcases lt_or_le c 0.4 with h2 | h2
        · rw [lookup_bin2 h1 h2]
        · rcases lt_or_le c 0.6 with h3 | h3
          · rw [lookup_bin3 h2 h3]
          · rcases lt_or_le c 0.8 with h4 | h4
            · rw [lookup_bin4 h3 h4]
            · have hlt' : c < (1.0:ℚ) := by rw [one_lit]; exact hlt
              rw [lookup_bin5 h4 hlt']
    · rw [lookup_of_one_le hge, if_neg (fun hh => absurd hh.2 (not_lt.mpr hge))]
      exact one_lit

lemma assess_mk_factors (w p h t : ℚ) :
    (assess_cyclone_risk (mkWeatherData w p h t)).factors =
      if 0 ≤ combined_risk w p h t ∧ combined_risk w p h t < 1
      then some ⟨wind_risk w, pressure_risk p, thermal_risk t, moisture_risk h⟩
      else none := by
  rw [assess_mk_eq]
  set c := combined_risk w p h t with hc
  rcases lt_or_le c 0 with hneg | h0
  · rw [lookup_of_neg hneg, if_neg (fun hh => absurd hh.1 (not_le.mpr hneg))]
  · rcases lt_or_le c 1 with hlt | hge
    · rw [if_pos ⟨h0, hlt⟩]
      rcases lt_or_le c 0.2 with h1 | h1
      · rw [lookup_bin1 h0 h1]
      · rcases lt_or_le c 0.4 with h2 | h2
        · rw [lookup_bin2 h1 h2]
        · rcases lt_or_le c 0.6 with h3 | h3
          · rw [lookup_bin3 h2 h3]
          · rcases lt_or_le c 0.8 with h4 | h4
            · rw [lookup_bin4 h3 h4]
            · have hlt' : c < (1.0:ℚ) := by rw [one_lit]; exact hlt
              rw [lookup_bin5 h4 hlt']
    · rw [lookup_of_one_le hge, if_neg (fun hh => absurd hh.2 (not_lt.mpr hge))]

lemma wind_risk_nonneg {w : ℚ} (hw : 0 ≤ w) : 0 ≤ wind_risk w :=
  le_min (div_nonneg hw (by norm_num)) (by norm_num)

lemma wind_risk_le_one (w : ℚ) : wind_risk w ≤ 1 :=
  le_trans (min_le_right (w / 120) (1.0:ℚ)) (le_of_eq one_lit)

lemma pressure_risk_nonneg (p : ℚ) : 0 ≤ pressure_risk p := le_max_left _ _

lemma thermal_risk_nonneg (t : ℚ) : 0 ≤ thermal_risk t := by
  unfold thermal_risk
  split
  · exact le_max_left _ _
  · exact le_refl 0

lemma moisture_risk_nonneg {h : ℚ} (hh : 0 ≤ h) : 0 ≤ moisture_risk h :=
  div_nonneg hh (by norm_num)

lemma combined_risk_nonneg {w h : ℚ} (p t : ℚ) (hw : 0 ≤ w) (hh : 0 ≤ h) :
    0 ≤ combined_risk w p h t := by
  unfold combined_risk
  have h1 := wind_risk_nonneg hw
  have h2 := pressure_risk_nonneg p
  have h3 := thermal_risk_nonneg t
  have h4 := moisture_risk_nonneg hh
  nlinarith

lemma wind_risk_mono {w₁ w₂ : ℚ} (hle : w₁ ≤ w₂) : wind_risk w₁ ≤ wind_risk w₂ :=
  min_le_min (by apply div_le_div_of_nonneg_right hle; norm_num) (le_refl _)

lemma combined_risk_mono_wind {w₁ w₂ : ℚ} (p h t : ℚ) (hle : w₁ ≤ w₂) :
    combined_risk w₁ p h t ≤ combined_risk w₂ p h t := by
  unfold combined_risk
  have := wind_risk_mono hle
  nlinarith

lemma pressure_risk_eq_zero {p : ℚ} (hp : 1013 < p) : pressure_risk p = 0 :=
  max_eq_left (by apply div_nonpos_of_nonpos_of_nonneg <;> nlinarith)

lemma thermal_risk_eq (t : ℚ) :
    thermal_risk t = if t > 26 then (t - 26) / 10 else 0 := by
  unfold thermal_risk
  split
  · exact max_eq_right (by apply div_nonneg <;> nlinarith [lt_of_lt_of_le (by norm_num : (26:ℚ) > 0) (le_refl (26:ℚ))])
  · rfl


lemma assess_mk_of_lookup_some {w p h t lo hi : ℚ} {lv col : String}
    (hl : lookupRiskLevel (combined_risk w p h t) = some ((lo, hi), (lv, col))) :
    assess_cyclone_risk (mkWeatherData w p h t) =
      { risk_level := lv, probability := combined_risk w p h t,
        color := some col,
        factors := some ⟨wind_risk w, pressure_risk p,
                         thermal_risk t, moisture_risk h⟩ } := by
  rw [assess_mk_eq, hl]

lemma assess_mk_of_lookup_none {w p h t : ℚ}
    (hl : lookupRiskLevel (combined_risk w p h t) = none) :
    assess_cyclone_risk (mkWeatherData w p h t) =
      { risk_level := "Extreme", probability := 1.0,
        color := some "#2c3e50", factors := none } := by
  rw [assess_mk_eq, hl]

/-- C1: for every sample with the fields in the documented ranges, the
probability returned by `assess_cyclone_risk` lies in [0, 1]. -/
theorem probability_mem_unit_interval (w p h t : ℚ)
    (hw0 : 0 ≤ w) (hw1 : w ≤ 500) (hp0 : 850 ≤ p) (hp1 : p ≤ 1100)
    (hh0 : 0 ≤ h) (hh1 : h ≤ 100) (ht0 : -50 ≤ t) (ht1 : t ≤ 60) :
    0 ≤ (assess_cyclone_risk (mkWeatherData w p h t)).probability ∧
      (assess_cyclone_risk (mkWeatherData w p h t)).probability ≤ 1 := by
  rw [assess_mk_probability]
  split_ifs with hcond
  · exact ⟨hcond.1, le_of_lt hcond.2⟩
  · exact ⟨by norm_num, le_refl 1⟩

/-- Witness for C1 at the all-defaults sample. -/
theorem probability_mem_unit_interval_witness :
    0 ≤ (assess_cyclone_risk (mkWeatherData 0 1013 50 25)).probability ∧
      (assess_cyclone_risk (mkWeatherData 0 1013 50 25)).probability ≤ 1 :=
  probability_mem_unit_interval 0 1013 50 25 (by norm_num) (by norm_num)
    (by norm_num) (by norm_num) (by norm_num) (by norm_num) (by norm_num)
    (by norm_num)

lemma assess_none_factors : (assess_cyclone_risk none).factors = none := rfl

lemma probability_eq_weighted_sum_mk (w p h t : ℚ) (f : RiskFactors)
    (hf : (assess_cyclone_risk (mkWeatherData w p h t)).factors = some f) :
    (assess_cyclone_risk (mkWeatherData w p h t)).probability =
      0.3 * f.wind + 0.3 * f.pressure + 0.2 * f.thermal + 0.2 * f.moisture := by
  rw [assess_mk_factors] at hf
  rw [assess_mk_probability]
  split_ifs at hf ⊢ with hcond
  · simp only [Option.some.injEq] at hf
    subst hf
    unfold combined_risk
    ring

/-- C3: whenever the result carries a factor breakdown, the returned
probability is exactly the weighted sum of the four factor values (exactly,
hence within the stated floating-point tolerance). -/
theorem probability_eq_weighted_sum_of_factors (o : Option WeatherData)
    (f : RiskFactors) (hf : (assess_cyclone_risk o).factors = some f) :
    (assess_cyclone_risk o).probability =
      0.3 * f.wind + 0.3 * f.pressure + 0.2 * f.thermal + 0.2 * f.moisture := by
  cases o with
  | none =>
    rw [assess_none_factors] at hf
    cases hf
  | some wd =>
    obtain ⟨w, p, h, t, heq⟩ := assess_some_eq_mk wd
    rw [heq] at hf ⊢
    exact probability_eq_weighted_sum_mk w p h t f hf


lemma combined_defaults : combined_risk 0 1013 50 25 = 1/10 := by
  unfold combined_risk wind_risk pressure_risk thermal_risk moisture_risk
  norm_num [min_def, max_def]

lemma assess_defaults_eq :
    assess_cyclone_risk (mkWeatherData 0 1013 50 25) =
      { risk_level := "Low", probability := 1/10, color := some "#2ecc71",
        factors := some ⟨0, 0, 0, 1/2⟩ } := by
  have hb := lookup_bin1 (c := combined_risk 0 1013 50 25)
    (by rw [combined_defaults]; norm_num) (by rw [combined_defaults]; norm_num)
  rw [assess_mk_of_lookup_some hb, combined_defaults]
  norm_num [RiskAssessment.mk.injEq, RiskFactors.mk.injEq, wind_risk,
            pressure_risk, thermal_risk, moisture_risk, min_def, max_def]


/-- Witness for C3 at the all-defaults sample. -/
theorem probability_eq_weighted_sum_of_factors_witness :
    (assess_cyclone_risk (mkWeatherData 0 1013 50 25)).probability =
      0.3 * (RiskFactors.mk 0 0 0 (1/2)).wind +
      0.3 * (RiskFactors.mk 0 0 0 (1/2)).pressure +
      0.2 * (RiskFactors.mk 0 0 0 (1/2)).thermal +
      0.2 * (RiskFactors.mk 0 0 0 (1/2)).moisture :=
  probability_eq_weighted_sum_of_factors (mkWeatherData 0 1013 50 25)
    ⟨0, 0, 0, 1/2⟩ (by rw [assess_defaults_eq])

lemma combined_lowpressure : combined_risk 0 950 0 25 = 189/500 := by
  unfold combined_risk wind_risk pressure_risk thermal_risk moisture_risk
  norm_num [min_def, max_def]

lemma assess_lowpressure_eq :
    assess_cyclone_risk (mkWeatherData 0 950 0 25) =
      { risk_level := "Moderate", probability := 189/500,
        color := some "#f39c12", factors := some ⟨0, 63/50, 0, 0⟩ } := by
  have hb := lookup_bin2 (c := combined_risk 0 950 0 25)
    (by rw [combined_lowpressure]; norm_num)
    (by rw [combined_lowpressure]; norm_num)
  rw [assess_mk_of_lookup_some hb, combined_lowpressure]
  norm_num [RiskAssessment.mk.injEq, RiskFactors.mk.injEq, wind_risk,
            pressure_risk, thermal_risk, moisture_risk, min_def, max_def]

lemma combined_extreme : combined_risk 500 850 100 60 = 1079/500 := by
  unfold combined_risk wind_risk pressure_risk thermal_risk moisture_risk
  norm_num [min_def, max_def]

lemma assess_extreme_eq :
    assess_cyclone_risk (mkWeatherData 500 850 100 60) =
      { risk_level := "Extreme", probability := 1,
        color := some "#2c3e50", factors := none } := by
  rw [assess_mk_of_lookup_none
    (lookup_of_one_le (by rw [combined_extreme]; norm_num))]
  norm_num [RiskAssessment.mk.injEq]

lemma combined_negwind : combined_risk (-120) 1013 0 25 = -3/10 := by
  unfold combined_risk wind_risk pressure_risk thermal_risk moisture_risk
  norm_num [min_def, max_def]

lemma assess_negwind_eq :
    assess_cyclone_risk (mkWeatherData (-120) 1013 0 25) =
      { risk_level := "Extreme", probability := 1,
        color := some "#2c3e50", factors := none } := by
  rw [assess_mk_of_lookup_none
    (lookup_of_neg (by rw [combined_negwind]; norm_num))]
  norm_num [RiskAssessment.mk.injEq]

lemma combined_zerowind : combined_risk 0 1013 0 25 = 0 := by
  unfold combined_risk wind_risk pressure_risk thermal_risk moisture_risk
  norm_num [min_def, max_def]

lemma assess_zerowind_eq :
    assess_cyclone_risk (mkWeatherData 0 1013 0 25) =
      { risk_level := "Low", probability := 0,
        color := some "#2ecc71", factors := some ⟨0, 0, 0, 0⟩ } := by
  have hb := lookup_bin1 (c := combined_risk 0 1013 0 25)
    (by rw [combined_zerowind]) (by rw [combined_zerowind]; norm_num)
  rw [assess_mk_of_lookup_some hb, combined_zerowind]
  norm_num [RiskAssessment.mk.injEq, RiskFactors.mk.injEq, wind_risk,
            pressure_risk, thermal_risk, moisture_risk, min_def, max_def]

/-- C4: for every sample, the returned tier is exactly the tier of the spec
table bin containing the returned probability, the bins being half-open with
the final Extreme bin closed at 1.0; in particular probability 0.2 is tagged
Moderate and probability 0.4 is tagged High. -/
theorem tier_matches_spec_table (wd : WeatherData) :
    (assess_cyclone_risk (some wd)).risk_level =
      specTier (assess_cyclone_risk (some wd)).probability ∧
    specTier 0.2 = "Moderate" ∧ specTier 0.4 = "High" := by
  refine ⟨?_, by norm_num [specTier], by norm_num [specTier]⟩
  obtain ⟨w, p, h, t, heq⟩ := assess_some_eq_mk wd
  rw [heq]
  set c := combined_risk w p h t with hc
  rcases lt_or_le c 0 with hneg | h0
  · rw [assess_mk_of_lookup_none (lookup_of_neg hneg)]
    norm_num [specTier]
  · rcases lt_or_le c 0.2 with h1 | h1
    · rw [assess_mk_of_lookup_some (lookup_bin1 h0 h1)]
      simp [specTier, h1]
    · rcases lt_or_le c 0.4 with h2 | h2
      · rw [assess_mk_of_lookup_some (lookup_bin2 h1 h2)]
        simp [specTier, h2, not_lt.mpr h1]
      · rcases lt_or_le c 0.6 with h3 | h3
        · rw [assess_mk_of_lookup_some (lookup_bin3 h2 h3)]
          simp [specTier, h3, not_lt.mpr h1, not_lt.mpr h2]
        · rcases lt_or_le c 0.8 with h4 | h4
          · rw [assess_mk_of_lookup_some (lookup_bin4 h3 h4)]
            simp [specTier, h4, not_lt.mpr h1, not_lt.mpr h2, not_lt.mpr h3]
          · rcases lt_or_le c 1 with h5 | h5
            · have h5' : c < (1.0:ℚ) := by rw [one_lit]; exact h5
              rw [assess_mk_of_lookup_some (lookup_bin5 h4 h5')]
              simp [specTier, not_lt.mpr h1, not_lt.mpr h2, not_lt.mpr h3,
                    not_lt.mpr h4]
            · rw [assess_mk_of_lookup_none (lookup_of_one_le h5)]
              norm_num [specTier]

/-- C7: the sample built from the documented defaults (wind 0, pressure 1013,
humidity 50, temperature 25) — which is exactly what an all-missing current
dictionary defaults to — is assessed as probability 0.10, tier Low, color
#2ecc71. -/
theorem default_sample_assessment :
    assess_cyclone_risk (mkWeatherData 0 1013 50 25) =
      assess_cyclone_risk (some ⟨some ⟨some emptyCurrent⟩⟩) ∧
    (assess_cyclone_risk (mkWeatherData 0 1013 50 25)).probability = 0.1 ∧
    (assess_cyclone_risk (mkWeatherData 0 1013 50 25)).risk_level = "Low" ∧
    (assess_cyclone_risk (mkWeatherData 0 1013 50 25)).color =
      some "#2ecc71" := by
  refine ⟨rfl, ?_, ?_, ?_⟩ <;> rw [assess_defaults_eq] <;> norm_num

/-- C8: the risk assessment is a deterministic total function of its input:
equal weather data always yields equal results, and a result exists for
every input. -/
theorem assess_deterministic (o₁ o₂ : Option WeatherData) (hEq : o₁ = o₂) :
    assess_cyclone_risk o₁ = assess_cyclone_risk o₂ ∧
    ∃ r : RiskAssessment, assess_cyclone_risk o₁ = r :=
  ⟨congrArg assess_cyclone_risk hEq, assess_cyclone_risk o₁, rfl⟩

/-- Witness for C8 at the empty input. -/
theorem assess_deterministic_witness :
    assess_cyclone_risk none = assess_cyclone_risk none ∧
    ∃ r : RiskAssessment, assess_cyclone_risk none = r :=
  assess_deterministic none none rfl

/-- C9: whenever the weighted combination reaches 1.0, the function returns
the fallthrough result: probability exactly 1.0, tier Extreme with color
#2c3e50, and no factor breakdown. -/
theorem clamped_extreme_result (w p h t : ℚ)
    (hge : 1 ≤ combined_risk w p h t) :
    assess_cyclone_risk (mkWeatherData w p h t) =
      { risk_level := "Extreme", probability := 1,
        color := some "#2c3e50", factors := none } := by
  rw [assess_mk_of_lookup_none (lookup_of_one_le hge)]
  norm_num [RiskAssessment.mk.injEq]

/-- Witness for C9 at an extreme sample whose combination is 1079/500. -/
theorem clamped_extreme_result_witness :
    assess_cyclone_risk (mkWeatherData 500 850 100 60) =
      { risk_level := "Extreme", probability := 1,
        color := some "#2c3e50", factors := none } :=
  clamped_extreme_result 500 850 100 60 (by rw [combined_extreme]; norm_num)

/-- C10: a falsy weather-data argument yields exactly the unknown result with
probability 0 and neither a color nor a factor breakdown. -/
theorem falsy_input_unknown :
    assess_cyclone_risk none =
      { risk_level := "unknown", probability := 0,
        color := none, factors := none } := rfl


/-- C2 fails as stated: the in-range sample (wind 0, pressure 950, humidity 0,
temperature 25) gets a factor breakdown whose pressure entry is 63/50 > 1,
because the source never clamps the pressure factor from above. -/
theorem factor_unit_interval_counterexample :
    ((0:ℚ) ≤ 0 ∧ (0:ℚ) ≤ 500) ∧ ((850:ℚ) ≤ 950 ∧ (950:ℚ) ≤ 1100) ∧
    ((0:ℚ) ≤ 0 ∧ (0:ℚ) ≤ 100) ∧ ((-50:ℚ) ≤ 25 ∧ (25:ℚ) ≤ 60) ∧
    (assess_cyclone_risk (mkWeatherData 0 950 0 25)).factors =
      some ⟨0, 63/50, 0, 0⟩ ∧
    ¬ ((63:ℚ)/50 ≤ 1) := by
  refine ⟨by norm_num, by norm_num, by norm_num, by norm_num,
          by rw [assess_lowpressure_eq], by norm_num⟩

/-- C2 amended: on in-range samples whose result carries a factor breakdown,
wind and moisture lie in [0, 1], while pressure only lies in [0, 163/50] and
thermal only in [0, 17/5] (the source clamps neither from above). -/
theorem factor_bounds_amended (w p h t : ℚ) (hw0 : 0 ≤ w) (hw1 : w ≤ 500)
    (hp0 : 850 ≤ p) (hp1 : p ≤ 1100) (hh0 : 0 ≤ h) (hh1 : h ≤ 100)
    (ht0 : -50 ≤ t) (ht1 : t ≤ 60) (f : RiskFactors)
    (hf : (assess_cyclone_risk (mkWeatherData w p h t)).factors = some f) :
    (0 ≤ f.wind ∧ f.wind ≤ 1) ∧ (0 ≤ f.pressure ∧ f.pressure ≤ 163/50) ∧
    (0 ≤ f.thermal ∧ f.thermal ≤ 17/5) ∧
    (0 ≤ f.moisture ∧ f.moisture ≤ 1) := by
  rw [assess_mk_factors] at hf
  by_cases hcond : 0 ≤ combined_risk w p h t ∧ combined_risk w p h t < 1
  · rw [if_pos hcond] at hf
    simp only [Option.some.injEq] at hf
    subst hf
    refine ⟨⟨wind_risk_nonneg hw0, wind_risk_le_one w⟩,
            ⟨pressure_risk_nonneg p, ?_⟩,
            ⟨thermal_risk_nonneg t, ?_⟩,
            ⟨moisture_risk_nonneg hh0, ?_⟩⟩
    · unfold pressure_risk
      exact max_le (by norm_num) (by nlinarith)
    · rw [thermal_risk_eq]
      split
      · nlinarith
      · norm_num
    · unfold moisture_risk
      nlinarith
  · rw [if_neg hcond] at hf
    cases hf

/-- Witness for the amended C2 at the all-defaults sample. -/
theorem factor_bounds_amended_witness :
    (0 ≤ (RiskFactors.mk 0 0 0 (1/2)).wind ∧
       (RiskFactors.mk 0 0 0 (1/2)).wind ≤ 1) ∧
    (0 ≤ (RiskFactors.mk 0 0 0 (1/2)).pressure ∧
       (RiskFactors.mk 0 0 0 (1/2)).pressure ≤ 163/50) ∧
    (0 ≤ (RiskFactors.mk 0 0 0 (1/2)).thermal ∧
       (RiskFactors.mk 0 0 0 (1/2)).thermal ≤ 17/5) ∧
    (0 ≤ (RiskFactors.mk 0 0 0 (1/2)).moisture ∧
       (RiskFactors.mk 0 0 0 (1/2)).moisture ≤ 1) :=
  factor_bounds_amended 0 1013 50 25 (by norm_num) (by norm_num) (by norm_num)
    (by norm_num) (by norm_num) (by norm_num) (by norm_num) (by norm_num)
    ⟨0, 0, 0, 1/2⟩ (by rw [assess_defaults_eq])

/-- C5 fails as stated: at the sample (wind 500, pressure 850, humidity 100,
temperature 60) the weighted combination of the factor formulas is 1079/500,
but the returned probability is the fallthrough value 1. -/
theorem probability_ne_weighted_formula_counterexample :
    (assess_cyclone_risk (mkWeatherData 500 850 100 60)).probability = 1 ∧
    combined_risk 500 850 100 60 = 1079/500 ∧
    (assess_cyclone_risk (mkWeatherData 500 850 100 60)).probability ≠
      combined_risk 500 850 100 60 := by
  refine ⟨by rw [assess_extreme_eq], combined_extreme, ?_⟩
  rw [assess_extreme_eq, combined_extreme]
  norm_num

/-- C5 amended: the four factor values are exactly the documented formulas,
and the probability is their weighted combination whenever that combination
lies in [0, 1); otherwise the function returns 1. -/
theorem factors_formula_clamped_probability (w p h t : ℚ) :
    wind_risk w = min (w / 120) 1 ∧
    pressure_risk p = max 0 ((1013 - p) / 50) ∧
    thermal_risk t = (if t > 26 then (t - 26) / 10 else 0) ∧
    moisture_risk h = h / 100 ∧
    (assess_cyclone_risk (mkWeatherData w p h t)).probability =
      (if 0 ≤ combined_risk w p h t ∧ combined_risk w p h t < 1
       then 0.3 * wind_risk w + 0.3 * pressure_risk p +
            0.2 * thermal_risk t + 0.2 * moisture_risk h
       else 1) := by
  refine ⟨?_, rfl, thermal_risk_eq t, rfl, ?_⟩
  · unfold wind_risk
    rw [one_lit]
  · rw [assess_mk_probability]
    split_ifs with hcond
    · unfold combined_risk
      ring
    · rfl

/-- C6 fails as stated: raising the wind speed from -120 to 0 (all other
fields fixed) drops the returned probability from 1 to 0, because a negative
weighted combination matches no bin and triggers the Extreme fallthrough. -/
theorem wind_monotonicity_counterexample :
    ((-120:ℚ) ≤ 0) ∧
    (assess_cyclone_risk (mkWeatherData (-120) 1013 0 25)).probability = 1 ∧
    (assess_cyclone_risk (mkWeatherData 0 1013 0 25)).probability = 0 ∧
    (assess_cyclone_risk (mkWeatherData 0 1013 0 25)).probability <
      (assess_cyclone_risk (mkWeatherData (-120) 1013 0 25)).probability := by
  rw [assess_negwind_eq, assess_zerowind_eq]
  norm_num

/-- C6 amended: with nonnegative wind speed and humidity, increasing the
wind speed never decreases the returned probability; and with both pressures
above 1013, increasing the pressure never increases the returned
probability. -/
theorem probability_monotone_amended (w₁ w₂ p h t w' p₁ p₂ h' t' : ℚ)
    (hw0 : 0 ≤ w₁) (hw12 : w₁ ≤ w₂) (hh0 : 0 ≤ h)
    (hp1 : 1013 < p₁) (hp12 : p₁ ≤ p₂) :
    (assess_cyclone_risk (mkWeatherData w₁ p h t)).probability ≤
      (assess_cyclone_risk (mkWeatherData w₂ p h t)).probability ∧
    (assess_cyclone_risk (mkWeatherData w' p₂ h' t')).probability ≤
      (assess_cyclone_risk (mkWeatherData w' p₁ h' t')).probability := by
  constructor
  · have hc1 : 0 ≤ combined_risk w₁ p h t := combined_risk_nonneg p t hw0 hh0
    have hc12 : combined_risk w₁ p h t ≤ combined_risk w₂ p h t :=
      combined_risk_mono_wind p h t hw12
    have hc2 : 0 ≤ combined_risk w₂ p h t := le_trans hc1 hc12
    rw [assess_mk_probability, assess_mk_probability]
    rcases lt_or_le (combined_risk w₂ p h t) 1 with hlt2 | hge2
    · rw [if_pos ⟨hc1, lt_of_le_of_lt hc12 hlt2⟩, if_pos ⟨hc2, hlt2⟩]
      exact hc12
    · rcases lt_or_le (combined_risk w₁ p h t) 1 with hlt1 | hge1
      · rw [if_pos ⟨hc1, hlt1⟩, if_neg (fun hh => absurd hh.2 (not_lt.mpr hge2))]
        exact le_of_lt hlt1
      · rw [if_neg (fun hh => absurd hh.2 (not_lt.mpr hge1)),
            if_neg (fun hh => absurd hh.2 (not_lt.mpr hge2))]
  · have hz1 : pressure_risk p₁ = 0 := pressure_risk_eq_zero hp1
    have hz2 : pressure_risk p₂ = 0 :=
      pressure_risk_eq_zero (lt_of_lt_of_le hp1 hp12)
    have hceq : combined_risk w' p₂ h' t' = combined_risk w' p₁ h' t' := by
      unfold combined_risk
      rw [hz1, hz2]
    rw [assess_mk_probability, assess_mk_probability, hceq]

/-- Witness for the amended C6 at concrete samples. -/
theorem probability_monotone_amended_witness :
    (assess_cyclone_risk (mkWeatherData 0 1013 50 25)).probability ≤
      (assess_cyclone_risk (mkWeatherData 120 1013 50 25)).probability ∧
    (assess_cyclone_risk (mkWeatherData 0 1030 50 25)).probability ≤
      (assess_cyclone_risk (mkWeatherData 0 1020 50 25)).probability :=
  probability_monotone_amended 0 120 1013 50 25 0 1020 1030 50 25
    (by norm_num) (by norm_num) (by norm_num) (by norm_num) (by norm_num)


/-- Witness for C4 at the weather data with no weatherapi entry. -/
theorem tier_matches_spec_table_witness :
    (assess_cyclone_risk (some ⟨none⟩)).risk_level =
      specTier (assess_cyclone_risk (some ⟨none⟩)).probability ∧
    specTier 0.2 = "Moderate" ∧ specTier 0.4 = "High" :=
  tier_matches_spec_table ⟨none⟩

/-- Witness for the amended C5 at the all-defaults sample. -/
theorem factors_formula_clamped_probability_witness :
    wind_risk 0 = min ((0:ℚ) / 120) 1 ∧
    pressure_risk 1013 = max 0 ((1013 - 1013) / 50) ∧
    thermal_risk 25 = (if (25:ℚ) > 26 then ((25:ℚ) - 26) / 10 else 0) ∧
    moisture_risk 50 = (50:ℚ) / 100 ∧
    (assess_cyclone_risk (mkWeatherData 0 1013 50 25)).probability =
      (if 0 ≤ combined_risk 0 1013 50 25 ∧ combined_risk 0 1013 50 25 < 1
       then 0.3 * wind_risk 0 + 0.3 * pressure_risk 1013 +
            0.2 * thermal_risk 25 + 0.2 * moisture_risk 50
       else 1) :=
  factors_formula_clamped_probability 0 1013 50 25

end CyclonePrediction
